import Mathlib

/-!
Verification of the PortalJS MCP server (datopian/portaljs-mcp-server).

This development shallowly embeds the TypeScript sources:
* `src/portaljs-client.ts` — the upstream HTTP client with its module-level
  response cache (`getCacheKey`, `isCacheValid`, `PortalJSAPIClient.makeRequest`);
* `src/index.ts` — the MCP agent variants, in particular the
  `preview_data_table` handler with its embedded CSV parser (`parseCSV` /
  `parseLine`) and Markdown table builder (`buildTable`), and the
  write-gated `create_dataset` handler;
* the worker variant containing the `compare_datasets` handler.

JavaScript values flowing through the handlers are modelled by the inductive
type `Js` below (JSON values; JS numbers are modelled as integers, which is
exact for every value these handlers manipulate).  Platform functions
(`fetch`, `JSON.parse`) are modelled as explicit oracles passed to the
embedded handlers, and `Date.now()` as an explicit `now : Int` argument.
-/

namespace PortalJS

/-- JSON/JavaScript values as manipulated by the handlers.  Objects are
insertion-ordered association lists, as in JavaScript.  Numbers are modelled
as `Int` (the handlers only ever produce integral numbers). -/
inductive Js where
  | jnull : Js
  | jbool : Bool → Js
  | jnum : Int → Js
  | jstr : String → Js
  | jarr : List Js → Js
  | jobj : List (String × Js) → Js
deriving Repr

/-- JavaScript truthiness of a value (`Boolean(v)`).  `undefined` is
represented at use sites by `Option.none` and handled there. -/
def Js.truthy : Js → Bool
  | .jnull => false
  | .jbool b => b
  | .jnum n => n != 0
  | .jstr s => s != ""
  | .jarr _ => true
  | .jobj _ => true

/-- First binding of a key in an object's field list (JS objects cannot have
duplicate keys, so on well-formed objects this is the unique binding). -/
def lookupField : List (String × Js) → String → Option Js
  | [], _ => none
  | (k, v) :: rest, key => if k == key then some v else lookupField rest key

/-- Property access `v[key]`; `none` models `undefined`. -/
def Js.getField : Js → String → Option Js
  | .jobj fs, key => lookupField fs key
  | _, _ => none

/-- `Object.keys(v)` (for the objects the handlers pass; the handlers never
take `Object.keys` of a non-object). -/
def jsKeys : Js → List String
  | .jobj fs => fs.map (fun p => p.1)
  | _ => []

/-- `String()` coercion for the primitive values the handlers stringify.
Handlers only coerce strings/numbers/booleans/null in the positions modelled
here. -/
def Js.display : Js → String
  | .jnull => "null"
  | .jbool b => if b then "true" else "false"
  | .jnum n => toString n
  | .jstr s => s
  | .jarr _ => ""
  | .jobj _ => "[object Object]"

/-- The string content of a JS value that the code uses as a string
(resource URLs, organization names); the handlers only reach these positions
with actual strings. -/
def Js.asString : Js → String
  | .jstr s => s
  | _ => ""

/-- Elements of a JS value used as an array. -/
def Js.asArray : Js → List Js
  | .jarr l => l
  | _ => []

/-- JSON string quoting, as `JSON.stringify` quotes a string.  (Control
characters other than the common escapes are left unescaped; no value in
this development contains one.) -/
def quoteJsonChar (c : Char) : String :=
  if c == '"' then "\\\""
  else if c == '\\' then "\\\\"
  else if c == '\n' then "\\n"
  else if c == '\r' then "\\r"
  else if c == '\t' then "\\t"
  else String.singleton c

/-- Quoted JSON form of a string. -/
def quoteJson (s : String) : String :=
  "\"" ++ String.join (s.data.map quoteJsonChar) ++ "\""

theorem lookupField_sizeOf_lt {fs : List (String × Js)} {k : String} {v : Js}
    (h : lookupField fs k = some v) : sizeOf v < sizeOf fs := by
  induction fs with
  | nil => simp [lookupField] at h
  | cons p rest ih =>
    obtain ⟨k', v'⟩ := p
    rw [lookupField] at h
    by_cases hk : (k' == k) = true
    · simp [hk] at h
      subst h
      simp
      omega
    · simp [hk] at h
      have := ih h
      simp
      omega

mutual
/-- `JSON.stringify(v, replacer?)` where the optional replacer is a property
list (ECMA-262 `SerializeJSONProperty`): with a property list, every object
is serialized by walking the list and emitting the properties the object
has, in list order. -/
def serializeJs (pl : Option (List String)) : Js → String
  | .jnull => "null"
  | .jbool b => if b then "true" else "false"
  | .jnum n => toString n
  | .jstr s => quoteJson s
  | .jarr l => "[" ++ String.intercalate "," (serializeJsList pl l) ++ "]"
  | .jobj fs =>
    let K := match pl with
      | some l => l
      | none => fs.map (fun p => p.1)
    "\x7b" ++ String.intercalate "," (serializeJsKeys pl K fs) ++ "\x7d"
termination_by j => (sizeOf j, 0)
decreasing_by
all_goals first
  | (apply Prod.Lex.left; exact lookupField_sizeOf_lt h)
  | (apply Prod.Lex.left; simp; done)
  | (apply Prod.Lex.left; simp; omega)
  | (apply Prod.Lex.right; simp; done)
  | (apply Prod.Lex.right; simp; omega)

/-- Serialized elements of an array. -/
def serializeJsList (pl : Option (List String)) : List Js → List String
  | [] => []
  | j :: rest => serializeJs pl j :: serializeJsList pl rest
termination_by l => (sizeOf l, 0)
decreasing_by
all_goals first
  | (apply Prod.Lex.left; exact lookupField_sizeOf_lt h)
  | (apply Prod.Lex.left; simp; done)
  | (apply Prod.Lex.left; simp; omega)
  | (apply Prod.Lex.right; simp; done)
  | (apply Prod.Lex.right; simp; omega)

/-- Serialized `"key":value` entries of an object, walking the key order `K`
and skipping keys the object does not have. -/
def serializeJsKeys (pl : Option (List String)) : List String → List (String × Js) → List String
  | [], _ => []
  | k :: ks, fs =>
    match h : lookupField fs k with
    | some v => (quoteJson k ++ ":" ++ serializeJs pl v) :: serializeJsKeys pl ks fs
    | none => serializeJsKeys pl ks fs
termination_by ks fs => (sizeOf fs, sizeOf ks)
decreasing_by
all_goals first
  | (apply Prod.Lex.left; exact lookupField_sizeOf_lt h)
  | (apply Prod.Lex.left; simp; done)
  | (apply Prod.Lex.left; simp; omega)
  | (apply Prod.Lex.right; simp; done)
  | (apply Prod.Lex.right; simp; omega)
end

/-! ## Upstream client (`src/portaljs-client.ts`) -/

/-- JavaScript `Array.prototype.sort()` on strings: the default comparator
orders strings lexicographically by code unit. -/
def jsSortStrings (l : List String) : List String := l.insertionSort (· ≤ ·)

/-- `JSON.stringify(v, replacer)` with an array replacer.  ECMA-262 builds
the property list from the array with duplicates removed. -/
def jsonStringifyWith (replacer : List String) (v : Js) : String :=
  serializeJs (some replacer.eraseDups) v

/-- `getCacheKey(endpoint, params?)` (portaljs-client.ts, lines 4–7):
`params ? JSON.stringify(params, Object.keys(params).sort()) : '\x7b\x7d'`
followed by `endpoint + ":" + sortedParams`.  `none` models an absent
`params` argument; a present-but-falsy `params` also takes the `'\x7b\x7d'`
branch, as in JS. -/
def getCacheKey (endpoint : String) (params : Option Js) : String :=
  let sortedParams :=
    match params with
    | some p =>
      if p.truthy then jsonStringifyWith (jsSortStrings (jsKeys p)) p
      else "\x7b\x7d"
    | none => "\x7b\x7d"
  endpoint ++ ":" ++ sortedParams

/-- `CACHE_TTL = 300000` (portaljs-client.ts, line 2). -/
def CACHE_TTL : Int := 300000

/-- `isCacheValid(timestamp)` (portaljs-client.ts, lines 9–11), with
`Date.now()` passed explicitly as `now`. -/
def isCacheValid (now timestamp : Int) : Bool := now - timestamp < CACHE_TTL

/-- One entry of the module-level response cache:
`\x7b data: any; timestamp: number \x7d`. -/
structure CacheEntry where
  data : Js
  timestamp : Int
deriving Repr

/-- The module-level `cache : Map<string, CacheEntry>`, as an association
list (insertion order, unique keys as maintained by `Map`). -/
abbrev Cache := List (String × CacheEntry)

/-- `cache.get(key)`. -/
def cacheGet : Cache → String → Option CacheEntry
  | [], _ => none
  | (k, e) :: rest, key => if k == key then some e else cacheGet rest key

/-- `cache.set(key, entry)`: replaces the binding if the key is present
(keeping its position, as `Map` does), else appends. -/
def cacheSet : Cache → String → CacheEntry → Cache
  | [], key, e => [(key, e)]
  | (k, e') :: rest, key, e =>
    if k == key then (key, e) :: rest else (k, e') :: cacheSet rest key e

/-- An outbound HTTP request as `fetch` receives it. -/
structure HttpRequest where
  url : String
  method : String
  headers : List (String × String)
  body : Option String
deriving Repr

/-- An HTTP response: transport status plus the value `response.json()`
parses to. -/
structure HttpResponse where
  ok : Bool
  status : Int
  statusText : String
  body : Js
deriving Repr

/-- `PortalJSAPIClient.getHeaders()` (lines 55–60).  Note: no
`Authorization` entry is ever produced — the client has no API-key field
(its constructor takes only `baseUrl`, although the worker entry calls it
as `new PortalJSAPIClient(portalUrl, apiKey)`, silently discarding the
key). -/
def getHeaders : List (String × String) :=
  [("Content-Type", "application/json"), ("User-Agent", "MCP-PortalJS-Server/1.0")]

/-- The `options: RequestInit` object built in `makeRequest`
(lines 73–80): requested method, `getHeaders()`, and a JSON body when
`data && method !== "GET"`. -/
structure RequestOptions where
  method : String
  headers : List (String × String)
  body : Option String
deriving Repr

/-- Build the `options` object of `makeRequest` (lines 73–80). -/
def requestOptions (method : String) (data : Option Js) : RequestOptions :=
  { method := method
    headers := getHeaders
    body :=
      match data with
      | some d => if d.truthy && method != "GET" then some (serializeJs none d) else none
      | none => none }

/-- The request actually issued by line 82, `await fetch(url)`: `fetch`
called with a URL and no init object defaults to method GET with no
caller-supplied headers and no body. -/
def fetchDefaultRequest (url : String) : HttpRequest :=
  { url := url, method := "GET", headers := [], body := none }

/-- Line 94, `result.result || \x7b\x7d`: the envelope's `result` field
when present and truthy, else the empty object. -/
def resultOrEmpty : Option Js → Js
  | some v => if v.truthy then v else .jobj []
  | none => .jobj []

/-- The two ways `makeRequest` throws. -/
inductive ReqError where
  | httpError (status : Int) (statusText : String)
  | apiError (error : Option Js)
deriving Repr

/-- Client instance state: `baseUrl` plus the module-level cache it reads
and writes. -/
structure ClientState where
  baseUrl : String
  cache : Cache
deriving Repr

/-- Constructor (lines 51–53): strips one trailing slash
(`baseUrl.replace(/\/$/, "")`).  The second (API key) argument some callers
pass does not exist on the constructor and is dropped. -/
def mkClient (baseUrl : String) (cache : Cache) : ClientState :=
  { baseUrl := if baseUrl.endsWith "/" then baseUrl.dropRight 1 else baseUrl
    cache := cache }

/-- Lines 66–69: the value served from cache for `key`, if the entry exists
and is still valid. -/
def cachedValue (cache : Cache) (now : Int) (key : String) : Option Js :=
  match cacheGet cache key with
  | some c => if isCacheValid now c.timestamp then some c.data else none
  | none => none

/-- Lines 65–70 as a whole: the cache probe performed before any network
activity (`useCache && method === "GET"` guard included). -/
def cacheProbe (st : ClientState) (now : Int) (method endpoint : String)
    (data : Option Js) (useCache : Bool) : Option Js :=
  if useCache && method == "GET" then
    cachedValue st.cache now (getCacheKey endpoint data)
  else none

/-- Observable outcome of one `makeRequest` call: the returned value or
thrown error, the cache afterwards, the outbound request actually issued
(`none` on a cache hit), and whether `cache.set` ran. -/
structure RequestOutcome where
  result : Except ReqError Js
  cache : Cache
  issued : Option HttpRequest
  wroteCache : Bool
deriving Repr

/-- `PortalJSAPIClient.makeRequest(method, endpoint, data?, useCache=true)`
(lines 62–104).  `net` models the network: the response `fetch` resolves
with for a given request.  Note line 82 issues `fetch(url)` — the `options`
object of lines 73–80 is built but never passed, so the outbound request is
`fetchDefaultRequest url`. -/
def makeRequest (st : ClientState) (net : HttpRequest → HttpResponse) (now : Int)
    (method endpoint : String) (data : Option Js) (useCache : Bool) : RequestOutcome :=
  let cacheKey := getCacheKey endpoint data
  match cacheProbe st now method endpoint data useCache with
  | some d => { result := .ok d, cache := st.cache, issued := none, wroteCache := false }
  | none =>
    let url := st.baseUrl ++ "/api/3/action/" ++ endpoint
    let _options := requestOptions method data  -- built (lines 73–80) but unused by line 82
    let req := fetchDefaultRequest url
    let resp := net req
    if !resp.ok then
      { result := .error (.httpError resp.status resp.statusText), cache := st.cache,
        issued := some req, wroteCache := false }
    else if !((resp.body.getField "success").getD .jnull).truthy then
      { result := .error (.apiError (resp.body.getField "error")), cache := st.cache,
        issued := some req, wroteCache := false }
    else
      let resultData := resultOrEmpty (resp.body.getField "result")
      if useCache && method == "GET" then
        { result := .ok resultData,
          cache := cacheSet st.cache cacheKey { data := resultData, timestamp := now },
          issued := some req, wroteCache := true }
      else
        { result := .ok resultData, cache := st.cache, issued := some req, wroteCache := false }

/-! ## `preview_data_table` (`src/index.ts`, lines 185–371) -/

/-- `String.prototype.includes(sub)` for the non-empty needles used by the
handlers (`"json"`, `"csv"`). -/
def strIncludes (s sub : String) : Bool := (s.splitOn sub).length > 1

/-- JavaScript `String.prototype.toLowerCase()` for the format strings the
handlers normalize (charwise lowercasing). -/
def jsToLower (s : String) : String := ⟨s.data.map Char.toLower⟩

/-- JavaScript `String.prototype.trim()`: strips leading and trailing
whitespace.  (JS trims all Unicode whitespace; the ASCII whitespace of
`Char.isWhitespace` covers every value in this development.) -/
def jsTrim (s : String) : String :=
  ⟨((s.data.dropWhile Char.isWhitespace).reverse.dropWhile Char.isWhitespace).reverse⟩

/-- The character scan of `parseLine` (index.ts lines 199–222): walks the
line with an `inQuotes` flag and an accumulating `current` field; `"`
toggles quoting unless it is the first of a doubled `""` inside quotes
(which appends one literal quote and skips a character); `,` outside quotes
pushes `current.trim()`; every other character is appended. -/
def parseLineChars : List Char → Bool → String → List String
  | [], _, current => [jsTrim current]
  | '"' :: rest, inQuotes, current =>
    if inQuotes then
      match rest with
      | '"' :: rest2 => parseLineChars rest2 true (current.push '"')
      | other => parseLineChars other false current
    else parseLineChars rest true current
  | ',' :: rest, inQuotes, current =>
    if inQuotes then parseLineChars rest inQuotes (current.push ',')
    else jsTrim current :: parseLineChars rest inQuotes ""
  | c :: rest, inQuotes, current => parseLineChars rest inQuotes (current.push c)

/-- `parseLine(line)` (index.ts lines 199–222). -/
def parseLine (line : String) : List String := parseLineChars line.data false ""

/-- `parseCSV(text, rowLimit)` (index.ts lines 195–235): drops blank lines,
parses the first line as the field list, and builds one record object per
following line (up to `rowLimit`, i.e. `lines.slice(1, rowLimit + 1)`),
with `record[field] = values[i] || ''`. -/
def parseCSV (text : String) (rowLimit : Nat) : List String × List Js :=
  let lines := (text.splitOn "\n").filter (fun line => jsTrim line != "")
  match lines with
  | [] => ([], [])
  | headerLine :: restLines =>
    let fields := parseLine headerLine
    let records := (restLines.take rowLimit).map (fun line =>
      let values := parseLine line
      Js.jobj (fields.enum.map (fun p => (p.2, Js.jstr ((values.get? p.1).getD "")))))
    (fields, records)

/-- Escape literal pipes: `String(value).replace(/\|/g, '\\|')`. -/
def escapePipes (s : String) : String :=
  String.join (s.data.map (fun c => if c == '|' then "\\|" else String.singleton c))

/-- The presentation metadata `buildTable` receives (index.ts line 237):
source label, download URL, optional total, rows shown. -/
structure TableMeta where
  source : String
  url : String
  total : Option Js
  showing : Nat
deriving Repr

/-- `buildTable(fields, records, metadata)` (index.ts lines 237–259):
`'No data found in this resource.'` for zero records, else metadata lines
followed by a Markdown table; `null`/`undefined` cells render empty and
pipes are escaped. -/
def buildTable (fields : List String) (records : List Js) (meta : TableMeta) : String :=
  if records.length == 0 then "No data found in this resource."
  else
    let header := "| " ++ String.intercalate " | " fields ++ " |"
    let separator := "| " ++ String.intercalate " | " (fields.map (fun _ => "---")) ++ " |"
    let rows := records.map (fun record =>
      let values := fields.map (fun field =>
        match record.getField field with
        | none => ""
        | some .jnull => ""
        | some v => escapePipes v.display)
      "| " ++ String.intercalate " | " values ++ " |")
    let metaLines :=
      ["**Source:** " ++ meta.source]
      ++ (if meta.url != "" then
            ["**Download URL:** [Download Resource](" ++ meta.url ++ ")"] else [])
      ++ (match meta.total with
          | some t => if t.truthy then ["**Total Records:** " ++ t.display] else []
          | none => [])
      ++ ["**Showing:** " ++ toString meta.showing ++ " rows\n"]
    String.intercalate "\n" (metaLines ++ [header, separator] ++ rows)

/-- Result of the `preview_data_table` handler before rendering: either an
error text, or the arguments handed to `buildTable`. -/
inductive PreviewOutcome where
  | errorText (msg : String)
  | table (fields : List String) (records : List Js) (meta : TableMeta)
deriving Repr

/-- The single text content item the handler returns. -/
def renderPreview : PreviewOutcome → String
  | .errorText m => m
  | .table f r meta => buildTable f r meta

/-- Records of a preview outcome (empty for error outcomes). -/
def previewRecords : PreviewOutcome → List Js
  | .errorText _ => []
  | .table _ r _ => r

/-- Source label of a preview outcome (empty for error outcomes). -/
def previewSourceLabel : PreviewOutcome → String
  | .errorText _ => ""
  | .table _ _ meta => meta.source

/-- The response of the raw resource-URL fetch in the fallback path. -/
structure DataResponse where
  ok : Bool
  status : Int
  contentType : String
  text : String
deriving Repr

/-- The environment of one `preview_data_table` invocation: the parsed
responses of the `resource_show`, `package_show` and `datastore_search`
calls (the datastore attempt is wrapped in its own try/catch, modelled by
`Except`), the raw resource fetch, and the platform `JSON.parse`
(`.error msg` models a thrown `SyntaxError` with that message). -/
structure PreviewEnv where
  resourceShow : Js
  packageShow : Js
  datastore : Except Unit Js
  dataResp : DataResponse
  jsonParse : String → Except String Js

/-- The fallback path of `preview_data_table` (index.ts lines 315–360),
reached when the DataStore attempt throws or reports no records: fetch the
resource's raw bytes and render them as JSON or CSV, else report an
unsupported format. -/
def previewFallback (env : PreviewEnv) (format resourceUrl : String) (maxLimit : Nat) :
    PreviewOutcome :=
  if !env.dataResp.ok then
    .errorText ("Error: Failed to fetch resource data (HTTP "
      ++ toString env.dataResp.status ++ ").")
  else
    let contentType := env.dataResp.contentType
    let rawData := env.dataResp.text
    if format == "json" || strIncludes contentType "json" then
      match env.jsonParse rawData with
      | .error msg => .errorText ("Error: Failed to preview data. " ++ msg)
      | .ok parsed =>
        let array := match parsed with
          | .jarr l => l
          | p => [p]
        let records := array.take maxLimit
        let fields := match records with
          | r :: _ => jsKeys r
          | [] => []
        .table fields records
          { source := "Direct fetch (JSON)", url := resourceUrl, total := none,
            showing := records.length }
    else if format == "csv" || strIncludes contentType "csv"
        || resourceUrl.endsWith ".csv" then
      let parsed := parseCSV rawData maxLimit
      .table parsed.1 parsed.2
        { source := "Direct fetch (CSV)", url := resourceUrl, total := none,
          showing := parsed.2.length }
    else
      .errorText ("Error: Unsupported format '" ++ format
        ++ "'. Only CSV and JSON are supported.")

/-- The `preview_data_table` handler (index.ts lines 192–370).
`organization` is the org extracted from the worker route (`none` on the
plain route).  The `resource_id` argument only feeds the request URLs,
which the response environment already fixes, so it is not a parameter of
the model. -/
def previewDataTable (organization : Option String) (env : PreviewEnv) (limit : Nat) :
    PreviewOutcome :=
  let maxLimit := min limit 100
  let rd := env.resourceShow
  let urlField := (rd.getField "result").bind (fun r => r.getField "url")
  if !((rd.getField "success").getD .jnull).truthy || !((urlField.getD .jnull).truthy) then
    .errorText "Error: Resource not found or has no accessible URL."
  else
    let orgBlocked :=
      match organization with
      | some org =>
        let pd := env.packageShow
        ((pd.getField "success").getD .jnull).truthy &&
          (match ((pd.getField "result").bind (fun r => r.getField "organization")).bind
              (fun o => o.getField "name") with
           | some (.jstr n) => n != org
           | _ => true)
      | none => false
    if orgBlocked then
      .errorText ("Error: Resource not found in organization '" ++ organization.getD "" ++ "'")
    else
      let resourceUrl := (urlField.getD .jnull).asString
      let format := jsToLower
        (match (rd.getField "result").bind (fun r => r.getField "format") with
         | some f => if f.truthy then f.asString else ""
         | none => "")
      let fallback := previewFallback env format resourceUrl maxLimit
      match env.datastore with
      | .ok ds =>
        let dsRecords := (ds.getField "result").bind (fun r => r.getField "records")
        if ((ds.getField "success").getD .jnull).truthy && ((dsRecords.getD .jnull).truthy) then
          let records := (dsRecords.getD .jnull).asArray
          let fields := match (ds.getField "result").bind (fun r => r.getField "fields") with
            | some (.jarr fs) =>
              (fs.map (fun f => ((f.getField "id").getD .jnull).asString)).filter
                (fun i => i != "_id")
            | _ => []
          .table fields records
            { source := "DataStore", url := resourceUrl,
              total := (ds.getField "result").bind (fun r => r.getField "total"),
              showing := records.length }
        else fallback
      | .error _ => fallback

/-! ## `create_dataset` (write-gated handler, index.ts lines 984–1067) -/

/-- Per-session write credential: `state.apiKey` / `state.apiUrl`
(`none` models an unset field of `initialState = \x7b\x7d`). -/
structure SessionState where
  apiKey : Option String
  apiUrl : Option String
deriving Repr, DecidableEq

/-- Arguments of `create_dataset` after schema validation; `none` models an
omitted optional argument, `isPrivate` carries the schema default. -/
structure CreateDatasetArgs where
  name : String
  title : String
  notes : Option String
  owner_org : Option String
  tags : Option (List String)
  isPrivate : Bool
deriving Repr

/-- Observable outcome of one write-tool call: the text content item, the
session state afterwards, and the outbound request, if any. -/
structure ToolOutcome where
  text : String
  state : SessionState
  issued : Option HttpRequest
deriving Repr

/-- The fixed instructional message returned when `create_dataset` runs
unauthenticated (index.ts line 1000). -/
def authRequiredMessage : String :=
  "Authentication required.\n\nPlease set your API key first by sharing it with me, for example:\n\"My PortalJS API key is YOUR_KEY_HERE\"\n\nOr use the set_api_key tool directly."

/-- JS falsiness of `this.state.apiKey` (`undefined` or `""`). -/
def jsFalsyStr : Option String → Bool
  | none => true
  | some s => s == ""

/-- `JSON.stringify` of a possibly-undefined value interpolated into a
template literal (`undefined` stringifies to the text `undefined`). -/
def stringifyForTemplate : Option Js → String
  | some v => serializeJs none v
  | none => "undefined"

/-- The `create_dataset` handler (index.ts lines 995–1066).  Checks the
session credential first; if set, POSTs the request body with the key as
`Authorization` header and maps the response to a text message. -/
def createDataset (apiUrl : String) (st : SessionState) (net : HttpRequest → HttpResponse)
    (args : CreateDatasetArgs) : ToolOutcome :=
  if jsFalsyStr st.apiKey then
    { text := authRequiredMessage, state := st, issued := none }
  else
    let endpoint := apiUrl ++ "/api/3/action/package_create"
    let requestBody : Js := Js.jobj
      ([("name", Js.jstr args.name), ("title", Js.jstr args.title),
        ("private", Js.jbool args.isPrivate)]
       ++ (match args.notes with
           | some n => if n != "" then [("notes", Js.jstr n)] else []
           | none => [])
       ++ (match args.owner_org with
           | some o => if o != "" then [("owner_org", Js.jstr o)] else []
           | none => [])
       ++ (match args.tags with
           | some ts =>
             if ts.length > 0 then
               [("tags", Js.jarr (ts.map (fun t => Js.jobj [("name", Js.jstr t)])))]
             else []
           | none => []))
    let req : HttpRequest :=
      { url := endpoint, method := "POST",
        headers := [("Content-Type", "application/json"),
                    ("Authorization", st.apiKey.getD ""),
                    ("User-Agent", "MCP-PortalJS-Server/1.0")],
        body := some (serializeJs none requestBody) }
    let resp := net req
    if !resp.ok then
      { text := "Error: API returned " ++ toString resp.status ++ " " ++ resp.statusText,
        state := st, issued := some req }
    else if !((resp.body.getField "success").getD .jnull).truthy then
      let errVal := resp.body.getField "error"
      let errorMsg :=
        match errVal.bind (fun e => e.getField "message") with
        | some m => if m.truthy then m.asString else stringifyForTemplate errVal
        | none => stringifyForTemplate errVal
      let helpText :=
        if strIncludes errorMsg "owner_org" || strIncludes errorMsg "organization" then
          "\n\n💡 Tip: This error often means you need to specify an organization. Try adding the owner_org parameter with your organization's ID."
        else if strIncludes errorMsg "That URL is already in use"
            || strIncludes errorMsg "already exists" then
          "\n\n💡 Tip: A dataset with this name already exists. Try using a different name."
        else ""
      { text := "❌ Error creating dataset:\n" ++ errorMsg ++ helpText,
        state := st, issued := some req }
    else
      let result := (resp.body.getField "result").getD .jnull
      let fieldText := fun (f : String) =>
        match result.getField f with
        | some v => v.display
        | none => "undefined"
      { text := "✅ Dataset created successfully!\n\nID: " ++ fieldText "id"
          ++ "\nName: " ++ fieldText "name" ++ "\nTitle: " ++ fieldText "title"
          ++ "\nURL: " ++ apiUrl ++ "/dataset/" ++ fieldText "name"
          ++ "\n\nYou can now add resources (data files) to this dataset.",
        state := st, issued := some req }

/-! ## `compare_datasets` (agent variant, lines 1231–1275 of the worker
source) -/

/-- `Set` membership equality (SameValueZero): value equality on
primitives; for objects and arrays JS compares references, and the members
fed to `new Set` here come from freshly parsed JSON, so no two composite
members are ever the same reference — modelled by never equating
composites. -/
def jsSameValueZero : Js → Js → Bool
  | .jnull, .jnull => true
  | .jbool a, .jbool b => a == b
  | .jnum a, .jnum b => a == b
  | .jstr a, .jstr b => a == b
  | _, _ => false

/-- `[...new Set(l)]`: first occurrences, in insertion order. -/
def setDedup : List Js → List Js
  | [] => []
  | x :: rest => x :: setDedup (rest.filter (fun y => !jsSameValueZero x y))
termination_by l => l.length
decreasing_by
  refine Nat.lt_of_le_of_lt (List.length_filter_le _ _) ?_
  simp

/-- The per-dataset comparison object built from a resolved package
(`\x7b name, title, organization, created, last_modified, resource_count,
formats, tags, license, private, url \x7d`).  Fields absent from the
package surface as `null` (the JS object holds `undefined`, which every
downstream rendering treats identically). -/
def comparePackageEntry (apiUrl : String) (pkg : Js) : Js :=
  let resources := match pkg.getField "resources" with
    | some (.jarr l) => l
    | _ => []
  let orgTitle :=
    match (pkg.getField "organization").bind (fun o => o.getField "title") with
    | some t => if t.truthy then t else Js.jstr "None"
    | none => Js.jstr "None"
  Js.jobj
    [("name", (pkg.getField "name").getD .jnull),
     ("title", (pkg.getField "title").getD .jnull),
     ("organization", orgTitle),
     ("created", (pkg.getField "metadata_created").getD .jnull),
     ("last_modified", (pkg.getField "metadata_modified").getD .jnull),
     ("resource_count", Js.jnum resources.length),
     ("formats", Js.jarr (setDedup ((resources.map
         (fun r => (r.getField "format").getD .jnull)).filter Js.truthy))),
     ("tags", match pkg.getField "tags" with
       | some (.jarr ts) => Js.jarr (ts.map (fun t => (t.getField "name").getD .jnull))
       | _ => Js.jarr []),
     ("license", (pkg.getField "license_title").getD .jnull),
     ("private", (pkg.getField "private").getD .jnull),
     ("url", Js.jstr (apiUrl ++ "/dataset/"
       ++ ((pkg.getField "name").getD .jnull).display))]

/-- `!data.success || !data.result` — whether one `package_show` response
resolves (lines 1247–1249). -/
def compareResolves (data : Js) : Bool :=
  ((data.getField "success").getD .jnull).truthy
    && ((data.getField "result").getD .jnull).truthy

/-- The comparison entry for one id: the `\x7bid, error: "Not found"\x7d`
placeholder when the response does not resolve, else the populated entry. -/
def compareEntryFor (apiUrl : String) (net : String → Js) (id : String) : Js :=
  let data := net id
  if !compareResolves data then
    Js.jobj [("id", Js.jstr id), ("error", Js.jstr "Not found")]
  else
    comparePackageEntry apiUrl ((data.getField "result").getD .jnull)

/-- The `compare_datasets` handler (lines 1237–1266): slices the ids to the
first five and maps each, via its own `package_show` fetch, to a comparison
entry.  `net` maps a dataset id to the parsed response of its
`package_show` call; the `Promise.all` join preserves input order. -/
def compareDatasets (apiUrl : String) (net : String → Js) (dataset_ids : List String) :
    List Js :=
  (dataset_ids.take 5).map (compareEntryFor apiUrl net)

/-! ## Concrete environments used by counterexamples and witnesses -/

/-- A network whose every response is OK with a `success: true` envelope
whose `result` is present but falsy (`false`). -/
def falsyResultNet : HttpRequest → HttpResponse := fun _ =>
  { ok := true, status := 200, statusText := "OK",
    body := Js.jobj [("success", Js.jbool true), ("result", Js.jbool false)] }

/-- A network whose every response is OK with an empty-object result. -/
def okNet : HttpRequest → HttpResponse := fun _ =>
  { ok := true, status := 200, statusText := "OK",
    body := Js.jobj [("success", Js.jbool true), ("result", Js.jobj [])] }

/-- A network whose every response is a 500 failure. -/
def failNet : HttpRequest → HttpResponse := fun _ =>
  { ok := false, status := 500, statusText := "Internal Server Error",
    body := Js.jnull }

/-- A preview environment whose `datastore_search` response reports success
with two records even though the handler asked for at most one row. -/
def oversizedDatastoreEnv : PreviewEnv :=
  { resourceShow := Js.jobj
      [("success", Js.jbool true),
       ("result", Js.jobj [("url", Js.jstr "https://files/data.csv"),
                           ("format", Js.jstr "CSV")])]
    packageShow := Js.jnull
    datastore := .ok (Js.jobj
      [("success", Js.jbool true),
       ("result", Js.jobj
         [("records", Js.jarr [Js.jobj [("a", Js.jnum 1)], Js.jobj [("a", Js.jnum 2)]]),
          ("fields", Js.jarr [Js.jobj [("id", Js.jstr "a")]]),
          ("total", Js.jnum 2)])])
    dataResp := { ok := true, status := 200, contentType := "text/csv", text := "a\n1\n2" }
    jsonParse := fun _ => .error "Unexpected token" }

/-- Package-show responses for three ids of which the second does not
resolve. -/
def comparisonNet : String → Js := fun id =>
  if id == "b" then Js.jobj [("success", Js.jbool false)]
  else Js.jobj
    [("success", Js.jbool true),
     ("result", Js.jobj [("name", Js.jstr id), ("title", Js.jstr id)])]

/-- A client whose cache holds one entry, stored at time 0 under the key of
a parameterless GET to `package_show?id=a`. -/
def cachedClientState : ClientState :=
  { baseUrl := "https://portal",
    cache := [("package_show?id=a:\x7b\x7d", { data := Js.jstr "cached", timestamp := 0 })] }

/-- A preview environment that resolves through the JSON fallback: the
DataStore attempt throws, and the resource URL serves a three-element JSON
array. -/
def jsonPreviewEnv : PreviewEnv :=
  { resourceShow := Js.jobj
      [("success", Js.jbool true),
       ("result", Js.jobj [("url", Js.jstr "https://files/d.json"),
                           ("format", Js.jstr "JSON")])]
    packageShow := Js.jnull
    datastore := .error ()
    dataResp := { ok := true, status := 200, contentType := "application/json",
                  text := "[1,2,3]" }
    jsonParse := fun _ => .ok (Js.jarr [Js.jnum 1, Js.jnum 2, Js.jnum 3]) }

/-! ## Helper lemmas -/

theorem serializeJsKeys_congr (pl : Option (List String)) (K : List String)
    (p1 p2 : List (String × Js)) (hvals : ∀ k, lookupField p1 k = lookupField p2 k) :
    serializeJsKeys pl K p1 = serializeJsKeys pl K p2 := by
  induction K with
  | nil => simp [serializeJsKeys]
  | cons k ks ih =>
    rw [serializeJsKeys, serializeJsKeys, ← hvals k]
    cases lookupField p1 k <;> simp [ih]

theorem parseCSV_records_length_le (text : String) (rowLimit : Nat) :
    (parseCSV text rowLimit).2.length ≤ rowLimit := by
  simp only [parseCSV]
  split
  · simp
  · simp

/-! ## Claim theorems -/

/-- C7: the CSV line parser splits fields on commas occurring outside
double quotes, treats a doubled `""` inside a quoted field as one literal
quote, and trims leading/trailing whitespace from every field:
`a,"b,c",d` yields the fields `a`, `b,c`, `d`; `"a""b"` yields the single
field `a"b`; whitespace around an unquoted or quoted field is trimmed. -/
theorem parseLine_quoting_and_trimming :
    parseLine "a,\"b,c\",d" = ["a", "b,c", "d"]
    ∧ parseLine "\"a\"\"b\"" = ["a\"b"]
    ∧ parseLine "  a  , b " = ["a", "b"]
    ∧ parseLine " x ,\" y \"\" z \"" = ["x", "y \" z"] := by
  refine ⟨by decide, by decide, by decide, by decide⟩

/-- C1: the claim that `makeRequest` issues the outbound request with the
requested method, the client's headers, the JSON body and the API-key
header fails on the code: lines 73–80 build the `options` object but line
82 calls `fetch(url)` without it, so a `POST package_create` with a body
goes out as a default GET with no headers and no body (and `getHeaders`
has no `Authorization` entry at all — the constructor discards the API-key
argument the worker passes). -/
theorem makeRequest_ignores_built_options :
    (makeRequest { baseUrl := "https://portal", cache := [] } okNet 0 "POST" "package_create"
        (some (Js.jobj [("name", Js.jstr "x")])) true).issued
      = some { url := "https://portal/api/3/action/package_create",
               method := "GET", headers := [], body := none }
    ∧ (requestOptions "POST" (some (Js.jobj [("name", Js.jstr "x")]))).method = "POST"
    ∧ (requestOptions "POST" (some (Js.jobj [("name", Js.jstr "x")]))).headers = getHeaders
    ∧ (requestOptions "POST" (some (Js.jobj [("name", Js.jstr "x")]))).body.isSome = true
    ∧ ("GET" : String) ≠ "POST"
    ∧ getHeaders ≠ ([] : List (String × String))
    ∧ getHeaders.lookup "Authorization" = none :=
  ⟨rfl, rfl, rfl, rfl, by decide, by decide, rfl⟩

/-- C2 (counterexample): an OK response whose envelope is
`\x7bsuccess: true, result: false\x7d` makes `makeRequest` return the empty
mapping, not the present-but-falsy `result` value, because line 94 computes
`result.result || \x7b\x7d`. -/
theorem makeRequest_falsy_result_cex :
    (makeRequest { baseUrl := "https://portal", cache := [] } falsyResultNet 0 "GET"
        "package_show" none true).result = .ok (Js.jobj [])
    ∧ (falsyResultNet
        (fetchDefaultRequest "https://portal/api/3/action/package_show")).body.getField "result"
      = some (Js.jbool false)
    ∧ Js.jobj [] ≠ Js.jbool false :=
  ⟨rfl, rfl, nofun⟩

/-- C2 (amended): for a call that misses the cache, `makeRequest` throws
exactly when the HTTP response is not OK or the envelope's `success` flag
is falsy; otherwise it returns the envelope's `result` field when that
field is present and truthy, and the empty mapping when the field is
absent **or present but falsy**. -/
theorem makeRequest_error_and_result_characterization
    (st : ClientState) (net : HttpRequest → HttpResponse) (now : Int)
    (method endpoint : String) (data : Option Js) (useCache : Bool)
    (hmiss : cacheProbe st now method endpoint data useCache = none) :
    ((∃ err, (makeRequest st net now method endpoint data useCache).result = .error err)
      ↔ ((net (fetchDefaultRequest (st.baseUrl ++ "/api/3/action/" ++ endpoint))).ok = false
        ∨ (((net (fetchDefaultRequest
              (st.baseUrl ++ "/api/3/action/" ++ endpoint))).body.getField "success").getD
                .jnull).truthy = false))
    ∧ ((net (fetchDefaultRequest (st.baseUrl ++ "/api/3/action/" ++ endpoint))).ok = true →
        (((net (fetchDefaultRequest
            (st.baseUrl ++ "/api/3/action/" ++ endpoint))).body.getField "success").getD
              .jnull).truthy = true →
        (makeRequest st net now method endpoint data useCache).result
          = .ok (resultOrEmpty ((net (fetchDefaultRequest
              (st.baseUrl ++ "/api/3/action/" ++ endpoint))).body.getField "result"))) := by
  cases hok : (net (fetchDefaultRequest (st.baseUrl ++ "/api/3/action/" ++ endpoint))).ok
  · have hform : (makeRequest st net now method endpoint data useCache).result
        = .error (.httpError
            (net (fetchDefaultRequest (st.baseUrl ++ "/api/3/action/" ++ endpoint))).status
            (net (fetchDefaultRequest
              (st.baseUrl ++ "/api/3/action/" ++ endpoint))).statusText) := by
      simp [makeRequest, hmiss, hok]
    refine ⟨⟨fun _ => Or.inl rfl, fun _ => ⟨_, hform⟩⟩, fun hcontra => absurd hcontra (by simp)⟩
  · cases hsucc : (((net (fetchDefaultRequest
        (st.baseUrl ++ "/api/3/action/" ++ endpoint))).body.getField "success").getD
          .jnull).truthy
    · have hform : (makeRequest st net now method endpoint data useCache).result
          = .error (.apiError ((net (fetchDefaultRequest
              (st.baseUrl ++ "/api/3/action/" ++ endpoint))).body.getField "error")) := by
        simp [makeRequest, hmiss, hok, hsucc]
      exact ⟨⟨fun _ => Or.inr rfl, fun _ => ⟨_, hform⟩⟩,
        fun _ hcontra => absurd hcontra (by simp)⟩
    · have hform : (makeRequest st net now method endpoint data useCache).result
          = .ok (resultOrEmpty ((net (fetchDefaultRequest
              (st.baseUrl ++ "/api/3/action/" ++ endpoint))).body.getField "result")) := by
        by_cases hg : (useCache && method == "GET") = true
        · simp [makeRequest, hmiss, hok, hsucc, hg]
        · simp [makeRequest, hmiss, hok, hsucc, hg]
      constructor
      · constructor
        · rintro ⟨err, herr⟩
          rw [hform] at herr
          cases herr
        · rintro (h | h) <;> cases h
      · intro _ _
        exact hform

/-- C2 witness: the characterization applied to a concrete successful call
(`okNet` returns an OK envelope with an empty-object result). -/
theorem makeRequest_error_and_result_characterization_witness :
    (makeRequest { baseUrl := "https://portal", cache := [] } okNet 0 "GET" "package_show"
        none true).result = .ok (Js.jobj []) :=
  (makeRequest_error_and_result_characterization
      { baseUrl := "https://portal", cache := [] } okNet 0 "GET" "package_show" none true
      rfl).2 rfl rfl

/-- C3: for a GET with caching enabled whose key has a cache entry, a read
strictly less than 300000 ms after the entry was stored returns the stored
payload unchanged, issues no network request and leaves the cache
untouched (no TTL refresh); a read at or after 300000 ms treats the entry
as absent and issues the upstream request. -/
theorem makeRequest_cache_ttl (st : ClientState) (net : HttpRequest → HttpResponse)
    (now : Int) (endpoint : String) (data : Option Js) (e : CacheEntry)
    (hl : cacheGet st.cache (getCacheKey endpoint data) = some e) :
    (now - e.timestamp < 300000 →
      makeRequest st net now "GET" endpoint data true
        = { result := .ok e.data, cache := st.cache, issued := none, wroteCache := false })
    ∧ (300000 ≤ now - e.timestamp →
      (makeRequest st net now "GET" endpoint data true).issued
        = some (fetchDefaultRequest (st.baseUrl ++ "/api/3/action/" ++ endpoint))) := by
  constructor
  · intro h
    simp [makeRequest, cacheProbe, cachedValue, hl, isCacheValid, CACHE_TTL, h]
  · intro h
    have hmiss : cacheProbe st now "GET" endpoint data true = none := by
      simp [cacheProbe, cachedValue, hl, isCacheValid, CACHE_TTL]
      omega
    simp only [makeRequest, hmiss]
    split
    · rfl
    · split
      · rfl
      · split <;> rfl

/-- C3 witness: the theorem applied to a concrete cached client at both a
fresh and a stale read time. -/
theorem makeRequest_cache_ttl_witness :
    makeRequest cachedClientState failNet 299999 "GET" "package_show?id=a" none true
      = { result := .ok (Js.jstr "cached"), cache := cachedClientState.cache,
          issued := none, wroteCache := false }
    ∧ (makeRequest cachedClientState failNet 300000 "GET" "package_show?id=a" none true).issued
      = some (fetchDefaultRequest "https://portal/api/3/action/package_show?id=a") :=
  ⟨(makeRequest_cache_ttl cachedClientState failNet 299999 "package_show?id=a" none
      { data := Js.jstr "cached", timestamp := 0 } rfl).1 (by decide),
   (makeRequest_cache_ttl cachedClientState failNet 300000 "package_show?id=a" none
      { data := Js.jstr "cached", timestamp := 0 } rfl).2 (by decide)⟩

/-- C4: the cache is written only by a cached GET whose upstream call
succeeded; a POST or explicitly non-cacheable request always hits the
network, leaves the cache unchanged, and its result does not depend on the
cache contents. -/
theorem makeRequest_cache_write_discipline (st : ClientState)
    (net : HttpRequest → HttpResponse) (now : Int) (method endpoint : String)
    (data : Option Js) (useCache : Bool) :
    ((makeRequest st net now method endpoint data useCache).wroteCache = true →
      method = "GET" ∧ useCache = true
        ∧ ∃ v, (makeRequest st net now method endpoint data useCache).result = .ok v)
    ∧ ((method = "POST" ∨ useCache = false) →
      (makeRequest st net now method endpoint data useCache).cache = st.cache
        ∧ (makeRequest st net now method endpoint data useCache).wroteCache = false
        ∧ (makeRequest st net now method endpoint data useCache).issued
            = some (fetchDefaultRequest (st.baseUrl ++ "/api/3/action/" ++ endpoint))
        ∧ ∀ cache2,
            (makeRequest { st with cache := cache2 } net now method endpoint data
                useCache).result
              = (makeRequest st net now method endpoint data useCache).result) := by
  constructor
  · intro hw
    cases hp : cacheProbe st now method endpoint data useCache with
    | some d => simp [makeRequest, hp] at hw
    | none =>
      by_cases hok : (net (fetchDefaultRequest
          (st.baseUrl ++ "/api/3/action/" ++ endpoint))).ok = true
      · by_cases hsucc : (((net (fetchDefaultRequest
            (st.baseUrl ++ "/api/3/action/" ++ endpoint))).body.getField "success").getD
              .jnull).truthy = true
        · by_cases hg : (useCache && method == "GET") = true
          · have hgm := hg
            simp only [Bool.and_eq_true, beq_iff_eq] at hgm
            exact ⟨hgm.2, hgm.1,
              resultOrEmpty ((net (fetchDefaultRequest
                (st.baseUrl ++ "/api/3/action/" ++ endpoint))).body.getField "result"),
              by simp [makeRequest, hp, hok, hsucc, hg]⟩
          · simp [makeRequest, hp, hok, hsucc, hg] at hw
        · simp [makeRequest, hp, hok, hsucc] at hw
      · simp [makeRequest, hp, hok] at hw
  · intro hmp
    have hguard : (useCache && method == "GET") = false := by
      rcases hmp with h | h <;> simp [h]
    have hp : cacheProbe st now method endpoint data useCache = none := by
      simp [cacheProbe, hguard]
    have hp2 : ∀ c2, cacheProbe { st with cache := c2 } now method endpoint data useCache
        = none := by
      intro c2
      simp [cacheProbe, hguard]
    refine ⟨?_, ?_, ?_, ?_⟩
    · simp only [makeRequest, hp]
      split
      · rfl
      · split
        · rfl
        · split
          · simp_all
          · rfl
    · simp only [makeRequest, hp]
      split
      · rfl
      · split
        · rfl
        · split
          · simp_all
          · rfl
    · simp only [makeRequest, hp]
      split
      · rfl
      · split
        · rfl
        · split
          · simp_all
          · rfl
    · intro c2
      simp only [makeRequest, hp, hp2]
      split
      · rfl
      · split
        · rfl
        · split
          · simp_all
          · rfl

/-- C4 witness: the discipline applied to a concrete POST. -/
theorem makeRequest_cache_write_discipline_witness :
    (makeRequest { baseUrl := "https://portal", cache := [] } okNet 0 "POST" "package_create"
        none true).cache = []
    ∧ (makeRequest { baseUrl := "https://portal", cache := [] } okNet 0 "POST" "package_create"
        none true).wroteCache = false := by
  have h := (makeRequest_cache_write_discipline { baseUrl := "https://portal", cache := [] }
      okNet 0 "POST" "package_create" none true).2 (Or.inl rfl)
  exact ⟨h.1, h.2.1⟩

/-- C6: calling `create_dataset` with no session API key returns the fixed
authentication-required message as the tool text, issues no upstream
request, and leaves the session state unchanged. -/
theorem createDataset_requires_auth (apiUrl : String) (st : SessionState)
    (net : HttpRequest → HttpResponse) (args : CreateDatasetArgs)
    (h : st.apiKey = none) :
    createDataset apiUrl st net args
      = { text := authRequiredMessage, state := st, issued := none } := by
  simp [createDataset, jsFalsyStr, h]

/-- C6 witness: a concrete unauthenticated `create_dataset` call. -/
theorem createDataset_requires_auth_witness :
    createDataset "https://api.cloud.portaljs.com" { apiKey := none, apiUrl := none } failNet
        { name := "n", title := "t", notes := none, owner_org := none, tags := none,
          isPrivate := false }
      = { text := authRequiredMessage, state := { apiKey := none, apiUrl := none },
          issued := none } :=
  createDataset_requires_auth "https://api.cloud.portaljs.com"
    { apiKey := none, apiUrl := none } failNet
    { name := "n", title := "t", notes := none, owner_org := none, tags := none,
      isPrivate := false } rfl

/-- Unfolding of the serializer at an object under an array replacer. -/
theorem serializeJs_jobj_some (L : List String) (fs : List (String × Js)) :
    serializeJs (some L) (Js.jobj fs)
      = "\x7b" ++ String.intercalate "," (serializeJsKeys (some L) L fs) ++ "\x7d" := by
  rw [serializeJs]

/-- C9: cache-key construction is insertion-order independent — two
parameter objects with the same key set and identical values per key
produce the same cache key, whatever order their keys were inserted in,
because `getCacheKey` serializes with the sorted key list as property
list. -/
theorem getCacheKey_order_independent (endpoint : String) (p1 p2 : List (String × Js))
    (h1 : (p1.map Prod.fst).Nodup) (h2 : (p2.map Prod.fst).Nodup)
    (hkeys : ∀ k, k ∈ p1.map Prod.fst ↔ k ∈ p2.map Prod.fst)
    (hvals : ∀ k, lookupField p1 k = lookupField p2 k) :
    getCacheKey endpoint (some (Js.jobj p1)) = getCacheKey endpoint (some (Js.jobj p2)) := by
  have hperm : (p1.map Prod.fst).Perm (p2.map Prod.fst) :=
    (List.perm_ext_iff_of_nodup h1 h2).mpr hkeys
  have hs1 : List.Sorted (· ≤ ·) (jsSortStrings (p1.map Prod.fst)) :=
    List.sorted_insertionSort _ _
  have hs2 : List.Sorted (· ≤ ·) (jsSortStrings (p2.map Prod.fst)) :=
    List.sorted_insertionSort _ _
  have hperm2 : (jsSortStrings (p1.map Prod.fst)).Perm (jsSortStrings (p2.map Prod.fst)) :=
    ((List.perm_insertionSort _ _).trans hperm).trans (List.perm_insertionSort _ _).symm
  have hsorted : jsSortStrings (p1.map Prod.fst) = jsSortStrings (p2.map Prod.fst) :=
    List.eq_of_perm_of_sorted hperm2 hs1 hs2
  simp only [getCacheKey, jsonStringifyWith, jsKeys, Js.truthy, if_true]
  rw [hsorted, serializeJs_jobj_some, serializeJs_jobj_some,
    serializeJsKeys_congr _ _ p1 p2 hvals]

/-- C9 witness: two concrete two-key parameter objects with opposite
insertion orders produce the same key. -/
theorem getCacheKey_order_independent_witness :
    getCacheKey "package_search" (some (Js.jobj [("rows", Js.jnum 5), ("q", Js.jstr "x")]))
      = getCacheKey "package_search"
          (some (Js.jobj [("q", Js.jstr "x"), ("rows", Js.jnum 5)])) := by
  apply getCacheKey_order_independent
  · decide
  · decide
  · intro k
    simp only [List.map_cons, List.map_nil, List.mem_cons, List.not_mem_nil, or_false]
    tauto
  · intro k
    by_cases hr : "rows" = k
    · by_cases hq : "q" = k
      · exact absurd (hr.trans hq.symm) (by decide)
      · simp [lookupField, hr, hq]
    · by_cases hq : "q" = k
      · simp [lookupField, hr, hq]
      · simp [lookupField, hr, hq]

/-- C8: for at most five dataset ids, `compare_datasets` returns one entry
per id in input order, each entry computed independently from that id's
own `package_show` response; an id whose response does not resolve yields
the `\x7bid, error: "Not found"\x7d` placeholder, and a resolving id yields
the populated comparison entry. -/
theorem compareDatasets_per_id_entries (apiUrl : String) (net : String → Js)
    (ids : List String) (h : ids.length ≤ 5) :
    (compareDatasets apiUrl net ids).length = ids.length
    ∧ (∀ i : Nat, (compareDatasets apiUrl net ids)[i]?
        = (ids[i]?).map (compareEntryFor apiUrl net))
    ∧ (∀ id, compareResolves (net id) = false →
        compareEntryFor apiUrl net id
          = Js.jobj [("id", Js.jstr id), ("error", Js.jstr "Not found")])
    ∧ (∀ id, compareResolves (net id) = true →
        compareEntryFor apiUrl net id
          = comparePackageEntry apiUrl (((net id).getField "result").getD .jnull)) := by
  have htake : ids.take 5 = ids := List.take_of_length_le h
  refine ⟨?_, ?_, ?_, ?_⟩
  · simp [compareDatasets, htake]
  · intro i
    simp [compareDatasets, htake]
  · intro id hid
    simp [compareEntryFor, hid]
  · intro id hid
    simp [compareEntryFor, hid]

/-- C8 witness: three concrete ids of which the second does not resolve —
three entries, the second being the placeholder. -/
theorem compareDatasets_per_id_entries_witness :
    (compareDatasets "https://p" comparisonNet ["a", "b", "c"]).length = 3
    ∧ (compareDatasets "https://p" comparisonNet ["a", "b", "c"])[1]?
      = some (Js.jobj [("id", Js.jstr "b"), ("error", Js.jstr "Not found")]) := by
  constructor
  · exact (compareDatasets_per_id_entries "https://p" comparisonNet ["a", "b", "c"]
      (by decide)).1
  · rw [(compareDatasets_per_id_entries "https://p" comparisonNet ["a", "b", "c"]
      (by decide)).2.1 1]
    rfl

/-- C10: with more than five ids, `compare_datasets` silently keeps only
the first five — the result is exactly the comparison of the first five
ids, with five entries and no indication for the ignored extras. -/
theorem compareDatasets_truncates_to_five (apiUrl : String) (net : String → Js)
    (ids : List String) (h : 5 < ids.length) :
    (compareDatasets apiUrl net ids).length = 5
    ∧ compareDatasets apiUrl net ids = compareDatasets apiUrl net (ids.take 5) := by
  constructor
  · simp [compareDatasets]
    omega
  · simp [compareDatasets, List.take_take]

/-- C10 witness: six concrete ids produce exactly five entries. -/
theorem compareDatasets_truncates_to_five_witness :
    (compareDatasets "https://p" comparisonNet ["a", "b", "c", "d", "e", "f"]).length = 5 :=
  (compareDatasets_truncates_to_five "https://p" comparisonNet
    ["a", "b", "c", "d", "e", "f"] (by decide)).1

/-- C5 (counterexample): with `limit = 1` the DataStore path renders the
two records the `datastore_search` response reports — more than
`min(1, 100) = 1` — because the handler trusts the endpoint's records
array and never clips it. -/
theorem previewDataTable_datastore_overflow_cex :
    (previewRecords (previewDataTable none oversizedDatastoreEnv 1)).length = 2
    ∧ previewSourceLabel (previewDataTable none oversizedDatastoreEnv 1) = "DataStore"
    ∧ ¬((previewRecords (previewDataTable none oversizedDatastoreEnv 1)).length ≤ min 1 100) :=
  ⟨rfl, rfl, by decide⟩

theorem previewFallback_table_bound (env : PreviewEnv) (format resourceUrl : String)
    (maxLimit : Nat) (f : List String) (r : List Js) (m : TableMeta)
    (h : previewFallback env format resourceUrl maxLimit = .table f r m) :
    r.length ≤ maxLimit
    ∧ (m.source = "Direct fetch (JSON)" ∨ m.source = "Direct fetch (CSV)") := by
  simp only [previewFallback] at h
  split at h
  · cases h
  · split at h
    · split at h
      · cases h
      · cases h
        refine ⟨?_, Or.inl rfl⟩
        simp
    · split at h
      · cases h
        exact ⟨parseCSV_records_length_le _ _, Or.inr rfl⟩
      · cases h

/-- C5 (amended): each rendered table's record list is clipped to
`min(L, 100)` on the JSON and CSV fallback paths; on the DataStore path the
table renders exactly the records array of the `datastore_search` response
(the handler only limits that source by asking the endpoint for at most
`min(L, 100)` records in the request). -/
theorem previewDataTable_row_clamp (organization : Option String) (env : PreviewEnv)
    (limit : Nat) (f : List String) (r : List Js) (m : TableMeta)
    (h : previewDataTable organization env limit = .table f r m) :
    ((m.source = "Direct fetch (JSON)" ∨ m.source = "Direct fetch (CSV)") →
      r.length ≤ min limit 100)
    ∧ (m.source = "DataStore" →
      ∃ ds, env.datastore = .ok ds
        ∧ r = (((ds.getField "result").bind (fun x => x.getField "records")).getD
            .jnull).asArray) := by
  simp only [previewDataTable] at h
  split at h
  · cases h
  · split at h
    · cases h
    · split at h
      · rename_i ds hds
        split at h
        · cases h
          constructor
          · rintro (hs | hs) <;> simp at hs
          · intro _
            exact ⟨ds, hds, rfl⟩
        · have hb := previewFallback_table_bound _ _ _ _ _ _ _ h
          refine ⟨fun _ => hb.1, fun hsrc => ?_⟩
          rcases hb.2 with h2 | h2 <;> rw [h2] at hsrc <;> exact absurd hsrc (by decide)
      · have hb := previewFallback_table_bound _ _ _ _ _ _ _ h
        refine ⟨fun _ => hb.1, fun hsrc => ?_⟩
        rcases hb.2 with h2 | h2 <;> rw [h2] at hsrc <;> exact absurd hsrc (by decide)

/-- C5 witness: the clamp applied to a concrete JSON-fallback preview with
`limit = 2` over a three-element array. -/
theorem previewDataTable_row_clamp_witness :
    (previewRecords (previewDataTable none jsonPreviewEnv 2)).length ≤ min 2 100 := by
  have h := (previewDataTable_row_clamp none jsonPreviewEnv 2 [] [Js.jnum 1, Js.jnum 2]
      { source := "Direct fetch (JSON)", url := "https://files/d.json", total := none,
        showing := 2 } rfl).1 (Or.inl rfl)
  exact h

end PortalJS
